import Mathlib

/-!
Verification of the state-machine execution engine of `sm-workflow`.

The definitions below are a shallow embedding of the TypeScript sources:

* `Event`, `Transition`, `EventBuilder`, `TransitionBuilder`
  — `src/state-machine/Event.ts`, `src/state-machine/Transition.ts`;
* `StateDef`, `Machine`, `start`, `stop`, `findTransition`,
  `executeTransition`, `loopBodyRaw`, `step`, `run`
  — `src/state-machine/StateMachine.ts` and the `State` interface of
  `src/state-machine/State.ts`;
* `distributionTransitions`, `handleSyncFailure`, `changeDetectionTransitions`,
  `triggerCompleteTransitions`, `scheduleCompleteTransitions`,
  `auditCompleteTransitions`
  — the concrete workflow stages in `src/workflows/states/`.

Modelling conventions.  JavaScript exceptions become `Except String`
values: each lifecycle call (`enter`, `execute`, `exit`) returns its
outcome together with the updated shared data (`context.data`, type `D`)
and the updated instance store (the mutable fields of the state objects,
such as retry counters, type `S`).  The engine's observable actions
(lifecycle calls, logger calls, fixed delays) are recorded in a `Call`
trace.  `async`/`await` sequencing is the strictly sequential order of the
source, so the run loop becomes the one-iteration function `step` plus the
fuel-bounded iteration `run`; `start` is modelled up to the point where the
loop takes over (the loop itself being `run`).  Timestamps (`new Date()`)
are opaque to every claim considered here and are modelled as `Nat` with a
default of `0`.
-/

/-- One observable engine action: a lifecycle call on a state, a logger
call, or a fixed delay (`setTimeout`). -/
inductive Call where
  | enter (name : String)
  | execute (name : String)
  | exit (name : String)
  | logInfo (msg : String)
  | logError (msg : String)
  | logDebug (msg : String)
  | sleep (ms : Nat)
deriving Repr, DecidableEq

/-- Embedding of `Event` (src/state-machine/Event.ts): a type tag, an
optional payload (opaque to the engine, modelled as an association list),
and a creation timestamp. -/
structure Event where
  type : String
  payload : Option (List (String × String)) := none
  timestamp : Nat := 0
deriving Repr, DecidableEq

/-- Embedding of `Transition` (src/state-machine/Transition.ts): an event
type, a target state name, and an optional guard over the event and the
shared data. -/
structure Transition (D : Type) where
  eventType : String
  targetState : String
  condition : Option (Event → D → Bool) := none

/-- Embedding of `TransitionBuilder.create` (src/state-machine/Transition.ts). -/
def TransitionBuilder.create {D : Type} (eventType targetState : String)
    (condition : Option (Event → D → Bool) := none) : Transition D :=
  { eventType := eventType, targetState := targetState, condition := condition }

/-- Embedding of `TransitionBuilder.on(e).goTo(t)` (src/state-machine/Transition.ts). -/
def TransitionBuilder.onGoTo {D : Type} (eventType targetState : String) :
    Transition D :=
  TransitionBuilder.create eventType targetState

/-- Embedding of `TransitionBuilder.on(e).goToIf(t, c)` (src/state-machine/Transition.ts). -/
def TransitionBuilder.onGoToIf {D : Type} (eventType targetState : String)
    (condition : Event → D → Bool) : Transition D :=
  TransitionBuilder.create eventType targetState (some condition)

/-- The predicate the callback of `StateMachine.findTransition`
(src/state-machine/StateMachine.ts, lines 110-120) computes for one
transition: `false` when the event types differ, otherwise the guard's
value when a guard is present, otherwise `true`. -/
def qualifies {D : Type} (t : Transition D) (event : Event) (data : D) : Bool :=
  if t.eventType != event.type then false
  else
    match t.condition with
    | some cond => cond event data
    | none => true

/-- Embedding of `StateMachine.findTransition` (src/state-machine/StateMachine.ts,
lines 107-122): `transitions.find(...) || null` over the state's declared
transition list, with the guard evaluated against `(event, context.data)`. -/
def findTransition {D : Type} (transitions : List (Transition D))
    (event : Event) (data : D) : Option (Transition D) :=
  transitions.find? fun t => qualifies t event data

/-- Embedding of the `State` interface (src/state-machine/State.ts).  Each
lifecycle method may raise (the `Except` component), and may mutate the
shared data `D` (`context.data`) and the instance store `S` (the state
object's own mutable fields); `getTransitions()` takes no context and reads
only the instance store. -/
structure StateDef (D S : Type) where
  name : String
  enter : D → S → Except String Unit × D × S
  execute : D → S → Except String (Option Event) × D × S
  exit : D → S → Except String Unit × D × S
  getTransitions : S → List (Transition D)

/-- Embedding of the `StateMachine` instance (src/state-machine/StateMachine.ts):
the configured initial-state name (`config.initialState`), the state
registry, the current-state pointer, the running flag, and the mutable
world (`context.data` plus the instance store). -/
structure Machine (D S : Type) where
  initialState : String
  states : List (String × StateDef D S)
  currentState : Option (StateDef D S) := none
  isRunning : Bool := false
  data : D
  store : S

/-- Registry lookup, `this.states.get(name)` on the `Map`. -/
def lookupState {D S : Type} (m : Machine D S) (name : String) :
    Option (StateDef D S) :=
  (m.states.find? fun p => p.1 == name).map (·.2)

/-- Embedding of `StateMachine.start` (src/state-machine/StateMachine.ts,
lines 23-45) up to the point where the run loop takes over: the two
pre-loop fatal checks, setting the running flag and the current state, and
the `enter` call on the initial state inside the `try` whose `catch` logs
and re-throws.  The subsequent `runStateMachine()` loop is modelled
separately by `step`/`run` (and never raises, see `exceptions_contained`). -/
def start {D S : Type} (m : Machine D S) :
    Except String Unit × Machine D S × List Call :=
  if m.isRunning then
    (.error "State machine is already running", m, [])
  else
    match lookupState m m.initialState with
    | none =>
        (.error ("Initial state '" ++ m.initialState ++ "' not found"), m, [])
    | some s0 =>
        let m1 := { m with isRunning := true, currentState := some s0 }
        let (r, d1, st1) := s0.enter m1.data m1.store
        let m2 := { m1 with data := d1, store := st1 }
        match r with
        | .ok _ => (.ok (), m2, [.enter s0.name])
        | .error e =>
            (.error e, m2,
              [.enter s0.name, .logError ("State machine error: " ++ e)])

/-- Embedding of `StateMachine.stop` (src/state-machine/StateMachine.ts,
lines 47-56): no-op when not running; otherwise clear the running flag and
call `exit` on the current state (whose exception, if any, propagates). -/
def stop {D S : Type} (m : Machine D S) :
    Except String Unit × Machine D S × List Call :=
  if m.isRunning then
    let m1 := { m with isRunning := false }
    match m1.currentState with
    | none => (.ok (), m1, [])
    | some cur =>
        let (r, d1, st1) := cur.exit m1.data m1.store
        (r, { m1 with data := d1, store := st1 }, [.exit cur.name])
  else
    (.ok (), m, [])

/-- Embedding of `StateMachine.executeTransition`
(src/state-machine/StateMachine.ts, lines 124-147): bail out when there is
no current state; log an error and return when the target state is absent
from the registry; otherwise log, `exit` the current state, switch the
current-state pointer, and `enter` the target.  Exceptions from `exit` or
`enter` propagate to the caller (the run-loop `try` block). -/
def executeTransition {D S : Type} (m : Machine D S) (t : Transition D)
    (event : Event) : Except String Unit × Machine D S × List Call :=
  match m.currentState with
  | none => (.ok (), m, [])
  | some cur =>
      match lookupState m t.targetState with
      | none =>
          (.ok (), m,
            [.logError ("Target state '" ++ t.targetState ++ "' not found")])
      | some target =>
          let log0 := Call.logInfo
            ("Transitioning from '" ++ cur.name ++ "' to '" ++ target.name ++
              "' on event '" ++ event.type ++ "'")
          let (rx, d1, st1) := cur.exit m.data m.store
          let m1 := { m with data := d1, store := st1 }
          match rx with
          | .error e => (.error e, m1, [log0, .exit cur.name])
          | .ok _ =>
              let m2 := { m1 with currentState := some target }
              let (re, d2, st2) := target.enter m2.data m2.store
              let m3 := { m2 with data := d2, store := st2 }
              (re, m3, [log0, .exit cur.name, .enter target.name])

/-- Embedding of the `try` block of one iteration of the `while` loop of
`StateMachine.runStateMachine` (src/state-machine/StateMachine.ts, lines
72-97), for current state `cur`: call `execute`; on a `null` result either
stop (empty transition list: the terminal rule, clearing the running flag)
or poll-wait; on an event, match it and either perform the transition or
debug-log; an `error` result is an exception escaping the `try` block. -/
def loopBodyRaw {D S : Type} (m : Machine D S) (cur : StateDef D S) :
    Except String Unit × Machine D S × List Call :=
  let (res, d1, st1) := cur.execute m.data m.store
  let m1 := { m with data := d1, store := st1 }
  match res with
  | .error e => (.error e, m1, [Call.execute cur.name])
  | .ok none =>
      let transitions := cur.getTransitions st1
      if transitions.isEmpty then
        (.ok (), { m1 with isRunning := false },
          [Call.execute cur.name,
            .logInfo ("Terminal state '" ++ cur.name ++
              "' reached - stopping state machine")])
      else
        (.ok (), m1, [Call.execute cur.name, .sleep 100])
  | .ok (some event) =>
      match findTransition (cur.getTransitions st1) event m1.data with
      | some t =>
          let (r, m2, tr) := executeTransition m1 t event
          (r, m2, Call.execute cur.name :: tr)
      | none =>
          (.ok (), m1,
            [Call.execute cur.name,
              .logDebug ("No transition found for event '" ++ event.type ++
                "' in state '" ++ cur.name ++ "'")])

/-- One full iteration of `StateMachine.runStateMachine`
(src/state-machine/StateMachine.ts, lines 70-105): nothing happens unless
the machine is running and has a current state; the `catch` clause turns an
exception from the `try` block into an error log (naming the state that is
current at catch time) followed by the fixed 1000 ms backoff. -/
def step {D S : Type} (m : Machine D S) : Machine D S × List Call :=
  match m.currentState with
  | none => (m, [])
  | some cur =>
      if m.isRunning then
        match loopBodyRaw m cur with
        | (.ok _, m1, tr) => (m1, tr)
        | (.error e, m1, tr) =>
            let name := ((m1.currentState.map (·.name)).getD cur.name)
            (m1, tr ++
              [.logError ("Error in state '" ++ name ++ "': " ++ e),
                .sleep 1000])
      else (m, [])

/-- Fuel-bounded iteration of the `while (this.isRunning && this.currentState)`
loop of `StateMachine.runStateMachine`. -/
def run {D S : Type} (fuel : Nat) (m : Machine D S) : Machine D S × List Call :=
  match fuel with
  | 0 => (m, [])
  | fuel + 1 =>
      if m.isRunning && m.currentState.isSome then
        let (m1, tr1) := step m
        let (m2, tr2) := run fuel m1
        (m2, tr1 ++ tr2)
      else (m, [])

/-- Embedding of `EventBuilder.create` (src/state-machine/Event.ts); the
creation instant is opaque here and fixed to `0`. -/
def EventBuilder.create (type : String)
    (payload : Option (List (String × String)) := none) : Event :=
  { type := type, payload := payload, timestamp := 0 }

/-- Embedding of `EventBuilder.syncSuccessful` (src/state-machine/Event.ts). -/
def EventBuilder.syncSuccessful : Event :=
  EventBuilder.create "SYNC_SUCCESSFUL"

/-- Embedding of `EventBuilder.syncFailed` (src/state-machine/Event.ts);
the payload carries the error message. -/
def EventBuilder.syncFailed (errMsg : String) : Event :=
  EventBuilder.create "SYNC_FAILED" (some [("error", errMsg)])

/-- Embedding of `EventBuilder.noChangeDetected` (src/state-machine/Event.ts). -/
def EventBuilder.noChangeDetected : Event :=
  EventBuilder.create "NO_CHANGE_DETECTED"

/-- Embedding of the string enum `WorkflowMode.TRIGGER` (src/types/WorkflowMode.ts). -/
def WorkflowMode.TRIGGER : String := "trigger"

/-- Embedding of the string enum `WorkflowMode.SCHEDULE` (src/types/WorkflowMode.ts). -/
def WorkflowMode.SCHEDULE : String := "schedule"

/-- Embedding of the string enum `WorkflowMode.MONITOR` (src/types/WorkflowMode.ts). -/
def WorkflowMode.MONITOR : String := "monitor"

/-- The slice of `context.data` read by the embedded workflow-stage guards:
the `workflowMode` key (`none` models an absent or non-string value, which
compares unequal to every mode literal under the strict equality of the
source). -/
structure CtxData where
  workflowMode : Option String := none
deriving Repr, DecidableEq

/-- Embedding of `DistributionState`'s `maxRetries` field
(src/workflows/states/DistributionState.ts). -/
def DistributionState.maxRetries : Nat := 2

/-- Embedding of `DistributionState.getTransitions`
(src/workflows/states/DistributionState.ts, lines 282-305), with the
instance field `this.retryCount` passed explicitly: three mode fan-out
transitions on `SYNC_SUCCESSFUL`, then the retry transition
(`retryCount < maxRetries`) and the give-up transition
(`retryCount >= maxRetries`) on `SYNC_FAILED`. -/
def distributionTransitions (retryCount : Nat) : List (Transition CtxData) :=
  [ TransitionBuilder.onGoToIf "SYNC_SUCCESSFUL" "TRIGGER_COMPLETE"
      (fun _ contextData => contextData.workflowMode == some WorkflowMode.TRIGGER),
    TransitionBuilder.onGoToIf "SYNC_SUCCESSFUL" "SCHEDULE_COMPLETE"
      (fun _ contextData => contextData.workflowMode == some WorkflowMode.SCHEDULE),
    TransitionBuilder.onGoToIf "SYNC_SUCCESSFUL" "AUDIT_COMPLETE"
      (fun _ contextData => contextData.workflowMode == some WorkflowMode.MONITOR),
    TransitionBuilder.onGoToIf "SYNC_FAILED" "DISTRIBUTION"
      (fun _ _ => decide (retryCount < DistributionState.maxRetries)),
    TransitionBuilder.onGoToIf "SYNC_FAILED" "MONITORING"
      (fun _ _ => decide (retryCount ≥ DistributionState.maxRetries)) ]

/-- Embedding of `DistributionState.handleSyncFailure`
(src/workflows/states/DistributionState.ts, lines 307-317): below the
ceiling, increment the counter and emit the failure event; at the ceiling,
reset the counter to zero and emit the failure event.  (The 1000 ms wait
before the retry is irrelevant to routing and omitted.) -/
def handleSyncFailure (retryCount : Nat) (errMsg : String) : Nat × Event :=
  if retryCount < DistributionState.maxRetries then
    (retryCount + 1, EventBuilder.syncFailed errMsg)
  else
    (0, EventBuilder.syncFailed errMsg)

/-- One failure round of the bounded-retry pattern as the engine executes
it: `execute` ends in `handleSyncFailure` (updating the counter and
returning the failure event), then the engine matches the event against
`getTransitions()` — which now sees the updated counter — and routes to
the selected target. -/
def failureStep (d : CtxData) (retryCount : Nat) : Nat × Option String :=
  let r := handleSyncFailure retryCount "sync error"
  (r.1, (findTransition (distributionTransitions r.1) r.2 d).map (·.targetState))

/-- Targets selected by `n` consecutive failure rounds starting from the
given counter value. -/
def failureRoutes (d : CtxData) : Nat → Nat → List (Option String)
  | 0, _ => []
  | n + 1, c =>
      let r := failureStep d c
      r.2 :: failureRoutes d n r.1

/-- Embedding of `ChangeDetectionState.getTransitions`
(src/workflows/states/ChangeDetectionState.ts, lines 90-106): one
unconditional transition on `VISUAL_CHANGE_DETECTED` and three guarded
mode fan-out transitions on `NO_CHANGE_DETECTED`. -/
def changeDetectionTransitions : List (Transition CtxData) :=
  [ TransitionBuilder.onGoTo "VISUAL_CHANGE_DETECTED" "RECIPE_EXECUTION",
    TransitionBuilder.onGoToIf "NO_CHANGE_DETECTED" "TRIGGER_COMPLETE"
      (fun _ contextData => contextData.workflowMode == some WorkflowMode.TRIGGER),
    TransitionBuilder.onGoToIf "NO_CHANGE_DETECTED" "SCHEDULE_COMPLETE"
      (fun _ contextData => contextData.workflowMode == some WorkflowMode.SCHEDULE),
    TransitionBuilder.onGoToIf "NO_CHANGE_DETECTED" "AUDIT_COMPLETE"
      (fun _ contextData => contextData.workflowMode == some WorkflowMode.MONITOR) ]

/-- Embedding of `TriggerCompleteState.getTransitions`
(src/workflows/states/TriggerCompleteState.ts, lines 41-44): empty. -/
def triggerCompleteTransitions : List (Transition CtxData) := []

/-- Embedding of `ScheduleCompleteState.getTransitions`
(src/workflows/states/ScheduleCompleteState.ts, lines 68-71): empty. -/
def scheduleCompleteTransitions : List (Transition CtxData) := []

/-- Embedding of `AuditCompleteState.getTransitions`
(src/workflows/states/AuditCompleteState.ts, lines 51-55): a single
transition on `CYCLE_COMPLETE` back to `MONITORING`. -/
def auditCompleteTransitions : List (Transition CtxData) :=
  [ TransitionBuilder.onGoTo "CYCLE_COMPLETE" "MONITORING" ]

/-- Demo transition with an always-false guard, for witnesses. -/
def demoT1 : Transition Unit :=
  { eventType := "A", targetState := "S1", condition := some fun _ _ => false }

/-- Demo unguarded transition, for witnesses. -/
def demoT2 : Transition Unit :=
  { eventType := "A", targetState := "S2" }

/-- Demo terminal state: `execute` returns `null`, no transitions. -/
def termState : StateDef Unit Unit :=
  { name := "S",
    enter := fun d s => (.ok (), d, s),
    execute := fun d s => (.ok none, d, s),
    exit := fun d s => (.ok (), d, s),
    getTransitions := fun _ => [] }

/-- Demo machine running in `termState`. -/
def termMachine : Machine Unit Unit :=
  { initialState := "S", states := [("S", termState)],
    currentState := some termState, isRunning := true,
    data := (), store := () }

/-- Demo machine that has not been started. -/
def idleMachine : Machine Unit Unit :=
  { initialState := "S", states := [("S", termState)],
    currentState := none, isRunning := false, data := (), store := () }

/-- Demo machine whose configured initial-state name is not registered. -/
def unknownInitMachine : Machine Unit Unit :=
  { initialState := "GHOST", states := [("S", termState)],
    currentState := none, isRunning := false, data := (), store := () }

/-- Demo state emitting an event whose matched transition targets an
unregistered state name. -/
def missState : StateDef Unit Unit :=
  { name := "M",
    enter := fun d s => (.ok (), d, s),
    execute := fun d s => (.ok (some { type := "E" }), d, s),
    exit := fun d s => (.ok (), d, s),
    getTransitions := fun _ => [{ eventType := "E", targetState := "GONE" }] }

/-- Demo machine running in `missState`. -/
def missMachine : Machine Unit Unit :=
  { initialState := "M", states := [("M", missState)],
    currentState := some missState, isRunning := true,
    data := (), store := () }

/-- Demo state whose `enter` raises. -/
def enterBoomState : StateDef Unit Unit :=
  { name := "B",
    enter := fun d s => (.error "enter boom", d, s),
    execute := fun d s => (.ok none, d, s),
    exit := fun d s => (.ok (), d, s),
    getTransitions := fun _ => [] }

/-- Demo machine configured to start in `enterBoomState`. -/
def enterBoomMachine : Machine Unit Unit :=
  { initialState := "B", states := [("B", enterBoomState)],
    currentState := none, isRunning := false, data := (), store := () }

/-- Demo state whose `exit` raises. -/
def exitBoomState : StateDef Unit Unit :=
  { name := "X",
    enter := fun d s => (.ok (), d, s),
    execute := fun d s => (.ok none, d, s),
    exit := fun d s => (.error "exit boom", d, s),
    getTransitions := fun _ => [] }

/-- Demo machine running in `exitBoomState`. -/
def exitBoomMachine : Machine Unit Unit :=
  { initialState := "X", states := [("X", exitBoomState)],
    currentState := some exitBoomState, isRunning := true,
    data := (), store := () }

/-- Demo state whose `execute` raises. -/
def execBoomState : StateDef Unit Unit :=
  { name := "EB",
    enter := fun d s => (.ok (), d, s),
    execute := fun d s => (.error "exec boom", d, s),
    exit := fun d s => (.ok (), d, s),
    getTransitions := fun _ => [] }

/-- Demo machine running in `execBoomState`. -/
def execBoomMachine : Machine Unit Unit :=
  { initialState := "EB", states := [("EB", execBoomState)],
    currentState := some execBoomState, isRunning := true,
    data := (), store := () }

theorem qualifies_iff {D : Type} (t : Transition D) (e : Event) (d : D) :
    qualifies t e d = true ↔
      t.eventType = e.type ∧ ∀ c, t.condition = some c → c e d = true := by
  unfold qualifies
  cases hc : t.condition with
  | none =>
      constructor
      · intro h
        refine ⟨?_, by intro c h'; cases h'⟩
        by_contra hne
        simp [hne] at h
      · rintro ⟨hty, -⟩
        simp [hty]
  | some c =>
      constructor
      · intro h
        have hty : t.eventType = e.type := by
          by_contra hne
          simp [hne] at h
        refine ⟨hty, ?_⟩
        intro c' h'
        cases h'
        simpa [hty] using h
      · rintro ⟨hty, hall⟩
        simpa [hty] using hall c rfl

/-- C1 (Transition matching): the engine selects a transition iff the
event's type equals the transition's `eventType` and the guard, when
present, evaluates true against the event and the shared data; when
several transitions qualify, the first qualifying one in declaration order
is returned; when none qualifies, matching yields no transition. -/
theorem transition_matching_spec {D : Type}
    (ts : List (Transition D)) (e : Event) (d : D) :
    (∀ t, findTransition ts e d = some t ↔
        (qualifies t e d = true ∧
          ∃ pre post, ts = pre ++ t :: post ∧ ∀ u ∈ pre, qualifies u e d = false))
    ∧ (findTransition ts e d = none ↔ ∀ t ∈ ts, qualifies t e d = false)
    ∧ (∀ t, qualifies t e d = true ↔
        (t.eventType = e.type ∧ ∀ c, t.condition = some c → c e d = true)) := by
  refine ⟨?_, ?_, fun t => qualifies_iff t e d⟩
  · intro t
    simp only [findTransition, List.find?_eq_some, Bool.not_eq_true']
  · simp only [findTransition, List.find?_eq_none, Bool.not_eq_true]

/-- Witness for `transition_matching_spec`: with a first always-false
guarded transition and a second unguarded one on event type "A", matching
selects the second. -/
theorem transition_matching_spec_witness :
    findTransition [demoT1, demoT2] { type := "A" } () = some demoT2 := by
  have h := (transition_matching_spec [demoT1, demoT2] { type := "A" } ()).1 demoT2
  refine h.mpr ⟨rfl, [demoT1], [], rfl, ?_⟩
  intro u hu
  rw [List.mem_singleton] at hu
  subst hu
  rfl

/-- C9 (Matching determinism): matching is a pure function of the event's
type, the guards' verdicts, and the shared data at call time.  Whenever two
calls see events of the same type and every declared guard returns the
same verdict on both calls, the matching result is identical — in
particular, replaying the same event against the same transition list with
unchanged shared data always yields the same result. -/
theorem matching_pure_deterministic {D : Type}
    (ts : List (Transition D)) (e1 e2 : Event) (d1 d2 : D)
    (hty : e1.type = e2.type)
    (hg : ∀ t ∈ ts, ∀ c, t.condition = some c → c e1 d1 = c e2 d2) :
    findTransition ts e1 d1 = findTransition ts e2 d2 := by
  induction ts with
  | nil => rfl
  | cons t ts ih =>
      have hmem : ∀ u ∈ ts, ∀ c, u.condition = some c → c e1 d1 = c e2 d2 :=
        fun u hu => hg u (List.mem_cons_of_mem t hu)
      have hq : qualifies t e1 d1 = qualifies t e2 d2 := by
        unfold qualifies
        rw [hty]
        cases hc : t.condition with
        | none => rfl
        | some c =>
            by_cases hne : (t.eventType != e2.type) = true
            · simp [hne]
            · simp only [Bool.not_eq_true] at hne
              simp [hne, hg t (List.mem_cons_self t ts) c hc]
      unfold findTransition at ih ⊢
      rw [List.find?_cons, List.find?_cons, hq]
      cases hqt : qualifies t e2 d2 with
      | false => simpa [hqt] using ih hmem
      | true => simp [hqt]

/-- Witness for `matching_pure_deterministic`: two events of type "A" with
different timestamps, guards ignoring the event, same shared data. -/
theorem matching_pure_deterministic_witness :
    findTransition [demoT1, demoT2] { type := "A", timestamp := 0 } () =
      findTransition [demoT1, demoT2] { type := "A", timestamp := 7 } () := by
  refine matching_pure_deterministic [demoT1, demoT2] _ _ () () rfl ?_
  intro t ht c hc
  rcases List.mem_cons.mp ht with rfl | ht2
  · cases hc
    rfl
  · rcases List.mem_singleton.mp ht2 with rfl
    exact absurd hc (by simp [demoT2])

/-- C2 (Terminal-state halt): when the current state's `execute` returns
`null` and its transition list is then empty, the iteration clears the
running flag after logging, and the loop makes no further call — in
particular no further `execute` on that state; conversely, an iteration of
the loop clears the running flag only in exactly that situation, so this
is the only loop-internal way a run ends (an external `stop()` being the
other). -/
theorem terminal_state_halts {D S : Type} (m : Machine D S)
    (cur : StateDef D S) (d1 : D) (st1 : S)
    (hr : m.isRunning = true) (hc : m.currentState = some cur)
    (hx : cur.execute m.data m.store = (.ok none, d1, st1))
    (ht : cur.getTransitions st1 = []) :
    step m = ({ m with data := d1, store := st1, isRunning := false },
      [Call.execute cur.name,
        .logInfo ("Terminal state '" ++ cur.name ++
          "' reached - stopping state machine")])
    ∧ (∀ fuel, run fuel (step m).1 = ((step m).1, []))
    ∧ (∀ (n : Machine D S) (c : StateDef D S), n.isRunning = true →
        n.currentState = some c → (step n).1.isRunning = false →
        ∃ d' s', c.execute n.data n.store = (.ok none, d', s') ∧
          c.getTransitions s' = []) := by
  have h1 : step m = ({ m with data := d1, store := st1, isRunning := false },
      [Call.execute cur.name,
        .logInfo ("Terminal state '" ++ cur.name ++
          "' reached - stopping state machine")]) := by
    simp [step, loopBodyRaw, hr, hc, hx, ht]
  refine ⟨h1, ?_, ?_⟩
  · intro fuel
    have hstop : (step m).1.isRunning = false := by rw [h1]
    cases fuel with
    | zero => rfl
    | succ fuel => simp [run, hstop]
  · intro n c hr' hc' hstop
    rcases hex : c.execute n.data n.store with ⟨res, d', s'⟩
    cases res with
    | error e =>
        exfalso
        rw [show (step n).1 = { n with data := d', store := s' } by
          simp [step, loopBodyRaw, hr', hc', hex]] at hstop
        rw [show ({ n with data := d', store := s' } : Machine D S).isRunning =
          n.isRunning from rfl, hr'] at hstop
        exact Bool.noConfusion hstop
    | ok oev =>
        cases oev with
        | none =>
            by_cases hemp : c.getTransitions s' = []
            · exact ⟨d', s', rfl, hemp⟩
            · exfalso
              have hne : (c.getTransitions s').isEmpty = false := by
                rcases hgt : c.getTransitions s' with _ | ⟨a, l⟩
                · exact absurd hgt hemp
                · rfl
              rw [show (step n).1 = { n with data := d', store := s' } by
                simp [step, loopBodyRaw, hr', hc', hex, hne]] at hstop
              rw [show ({ n with data := d', store := s' } :
                Machine D S).isRunning = n.isRunning from rfl, hr'] at hstop
              exact Bool.noConfusion hstop
        | some ev =>
            exfalso
            cases hft : findTransition (c.getTransitions s') ev d' with
            | none =>
                rw [show (step n).1 = { n with data := d', store := s' } by
                  simp [step, loopBodyRaw, hr', hc', hex, hft]] at hstop
                rw [show ({ n with data := d', store := s' } :
                  Machine D S).isRunning = n.isRunning from rfl, hr'] at hstop
                exact Bool.noConfusion hstop
            | some t =>
                have hpres : ∀ (mm : Machine D S) (tt : Transition D)
                    (ee : Event), (executeTransition mm tt ee).2.1.isRunning =
                      mm.isRunning := by
                  intro mm tt ee
                  unfold executeTransition
                  cases hcc : mm.currentState with
                  | none => rfl
                  | some c2 =>
                      cases hl : lookupState mm tt.targetState with
                      | none => rfl
                      | some tgt =>
                          rcases hxx : c2.exit mm.data mm.store with ⟨rx, dd, ss⟩
                          cases rx with
                          | error e => simp [hxx]
                          | ok u =>
                              rcases hee : tgt.enter dd ss with ⟨re, dd2, ss2⟩
                              simp [hxx, hee]
                rcases hxt : executeTransition { n with currentState := some c, isRunning := true, data := d', store := s' } t ev with ⟨r, m2, tr⟩
                have hrun2 : m2.isRunning = true := by
                  have hp := hpres { n with currentState := some c, isRunning := true, data := d', store := s' } t ev
                  rw [hxt] at hp
                  simpa using hp
                have hstep1 : (step n).1 = m2 := by
                  cases r with
                  | ok u => simp [step, loopBodyRaw, hr', hc', hex, hft, hxt]
                  | error e =>
                      simp [step, loopBodyRaw, hr', hc', hex, hft, hxt]
                rw [hstep1, hrun2] at hstop
                exact Bool.noConfusion hstop

/-- Witness for `terminal_state_halts`: the demo machine running in the
terminal state stops after one iteration and the loop makes no further
call. -/
theorem terminal_state_halts_witness :
    (step termMachine).1.isRunning = false ∧
    (step termMachine).2 =
      [Call.execute "S",
        Call.logInfo "Terminal state 'S' reached - stopping state machine"] ∧
    run 5 (step termMachine).1 = ((step termMachine).1, []) := by
  have h := terminal_state_halts termMachine termState () () rfl rfl rfl rfl
  refine ⟨?_, ?_, h.2.1 5⟩
  · rw [h.1]
  · rw [h.1]
    rfl

/-- C5 (stop idempotence): calling `stop()` when not running has no
observable effect (same machine, no calls); calling it while running
clears the running flag and invokes `exit` exactly once, on the state that
is current at that moment. -/
theorem stop_idempotent {D S : Type} (m : Machine D S) :
    (m.isRunning = false → stop m = (.ok (), m, []))
    ∧ (∀ cur, m.isRunning = true → m.currentState = some cur →
        ∃ r d' s', cur.exit m.data m.store = (r, d', s') ∧
          stop m = (r, { m with isRunning := false, data := d', store := s' },
            [Call.exit cur.name])) := by
  constructor
  · intro h
    simp [stop, h]
  · intro cur hr hc
    rcases hx : cur.exit m.data m.store with ⟨r, d', s'⟩
    exact ⟨r, d', s', rfl, by simp [stop, hr, hc, hx]⟩

/-- Witness for `stop_idempotent`: the not-started demo machine is
untouched; stopping the running demo machine clears the flag and exits the
current state once. -/
theorem stop_idempotent_witness :
    stop idleMachine = (.ok (), idleMachine, []) ∧
    stop termMachine =
      (.ok (), { termMachine with isRunning := false }, [Call.exit "S"]) := by
  constructor
  · exact (stop_idempotent idleMachine).1 rfl
  · obtain ⟨r, d', s', hx, hs⟩ := (stop_idempotent termMachine).2 termState rfl rfl
    have h2 : (r, d', s') = ((Except.ok () : Except String Unit), (), ()) :=
      hx.symm
    cases h2
    exact hs

/-- C6 (Missing-target containment): when the matched transition's target
state is not registered, the iteration logs an error, keeps the same
current state, calls neither `exit` nor `enter`, and leaves the running
flag untouched. -/
theorem missing_target_frame {D S : Type} (m : Machine D S)
    (cur : StateDef D S) (ev : Event) (t : Transition D) (d1 : D) (st1 : S)
    (hr : m.isRunning = true) (hc : m.currentState = some cur)
    (hx : cur.execute m.data m.store = (.ok (some ev), d1, st1))
    (hf : findTransition (cur.getTransitions st1) ev d1 = some t)
    (hm : lookupState m t.targetState = none) :
    step m = ({ m with data := d1, store := st1 },
      [Call.execute cur.name,
        .logError ("Target state '" ++ t.targetState ++ "' not found")])
    ∧ (step m).1.currentState = m.currentState
    ∧ (step m).1.isRunning = m.isRunning
    ∧ ∀ name, Call.exit name ∉ (step m).2 ∧ Call.enter name ∉ (step m).2 := by
  have hm1 : lookupState { m with currentState := some cur, isRunning := true, data := d1, store := st1 } t.targetState = none := hm
  have h1 : step m = ({ m with data := d1, store := st1 },
      [Call.execute cur.name,
        .logError ("Target state '" ++ t.targetState ++ "' not found")]) := by
    simp [step, loopBodyRaw, executeTransition, hr, hc, hx, hf, hm1]
  refine ⟨h1, by rw [h1], by rw [h1], ?_⟩
  intro name
  rw [h1]
  constructor
  · intro hmem
    rcases List.mem_cons.mp hmem with h | h
    · cases h
    · rcases List.mem_singleton.mp h with h
      cases h
  · intro hmem
    rcases List.mem_cons.mp hmem with h | h
    · cases h
    · rcases List.mem_singleton.mp h with h
      cases h

/-- Witness for `missing_target_frame`: the demo machine whose single
transition targets the unregistered name "GONE". -/
theorem missing_target_frame_witness :
    step missMachine =
      (missMachine,
        [Call.execute "M", Call.logError "Target state 'GONE' not found"]) ∧
    (step missMachine).1.currentState = missMachine.currentState ∧
    (step missMachine).1.isRunning = missMachine.isRunning := by
  have h := missing_target_frame missMachine missState { type := "E" }
    { eventType := "E", targetState := "GONE" } () () rfl rfl rfl rfl rfl
  exact ⟨h.1, h.2.1, h.2.2.1⟩

/-- Helper: `executeTransition` never touches the running flag (it only
logs, switches the current state, and runs `exit`/`enter`). -/
theorem executeTransition_isRunning {D S : Type} (m : Machine D S)
    (t : Transition D) (e : Event) :
    (executeTransition m t e).2.1.isRunning = m.isRunning := by
  unfold executeTransition
  cases hcc : m.currentState with
  | none => rfl
  | some c2 =>
      cases hl : lookupState m t.targetState with
      | none => rfl
      | some tgt =>
          rcases hxx : c2.exit m.data m.store with ⟨rx, dd, ss⟩
          cases rx with
          | error e2 => simp [hxx]
          | ok u =>
              rcases hee : tgt.enter dd ss with ⟨re, dd2, ss2⟩
              simp [hxx, hee]

/-- C3 amended (Exception propagation policy): once the run loop has
started, any exception from `execute` (or from `exit`/`enter` during a
transition) is caught inside the loop, logged, and followed by the fixed
backoff, leaving the running flag untouched; `start()` propagates an error
only from its two pre-loop fatal checks or from the initial state's
`enter` call; `stop()` raises exactly when the current state's `exit`
raises. -/
theorem exceptions_contained {D S : Type} :
    (∀ (m : Machine D S) (cur : StateDef D S) (e : String)
        (m1 : Machine D S) (tr : List Call),
        m.isRunning = true → m.currentState = some cur →
        loopBodyRaw m cur = (.error e, m1, tr) →
        step m = (m1, tr ++
          [.logError ("Error in state '" ++
              ((m1.currentState.map (·.name)).getD cur.name) ++ "': " ++ e),
            .sleep 1000]) ∧
        m1.isRunning = m.isRunning)
    ∧ (∀ (m : Machine D S) (e : String) (m' : Machine D S) (tr : List Call),
        start m = (.error e, m', tr) →
        (m.isRunning = true ∧ e = "State machine is already running")
        ∨ (m.isRunning = false ∧ lookupState m m.initialState = none ∧
            e = "Initial state '" ++ m.initialState ++ "' not found")
        ∨ (∃ s0 d1 st1, lookupState m m.initialState = some s0 ∧
            s0.enter m.data m.store = (.error e, d1, st1)))
    ∧ (∀ (m : Machine D S) (e : String) (m' : Machine D S) (tr : List Call),
        stop m = (.error e, m', tr) →
        m.isRunning = true ∧ ∃ cur d' s', m.currentState = some cur ∧
          cur.exit m.data m.store = (.error e, d', s')) := by
  refine ⟨?_, ?_, ?_⟩
  · intro m cur e m1 tr hr hc hraw
    constructor
    · simp [step, hr, hc, hraw]
    · rcases hex : cur.execute m.data m.store with ⟨res, d1, st1⟩
      cases res with
      | error e2 =>
          simp only [loopBodyRaw, hex] at hraw
          rw [Prod.mk.injEq, Prod.mk.injEq] at hraw
          rw [← hraw.2.1]
      | ok oev =>
          cases oev with
          | none =>
              cases hgt : cur.getTransitions st1 with
              | nil => simp [loopBodyRaw, hex, hgt] at hraw
              | cons a l => simp [loopBodyRaw, hex, hgt] at hraw
          | some ev =>
              cases hft : findTransition (cur.getTransitions st1) ev d1 with
              | none => simp [loopBodyRaw, hex, hft] at hraw
              | some t =>
                  rcases hxt : executeTransition
                      { m with data := d1, store := st1 } t ev with ⟨r, m2, tr2⟩
                  have hpr := executeTransition_isRunning
                    { m with data := d1, store := st1 } t ev
                  rw [hxt] at hpr
                  simp only [loopBodyRaw, hex, hxt, hft] at hraw
                  rw [Prod.mk.injEq, Prod.mk.injEq] at hraw
                  rw [← hraw.2.1]
                  simpa using hpr
  · intro m e m' tr h
    by_cases hr : m.isRunning
    · left
      simp only [start, hr, if_true] at h
      rw [Prod.mk.injEq] at h
      exact ⟨hr, (Except.error.injEq .. ▸ h.1).symm⟩
    · simp only [Bool.not_eq_true] at hr
      cases hl : lookupState m m.initialState with
      | none =>
          right; left
          simp only [start, hr, Bool.false_eq_true, if_false, hl] at h
          rw [Prod.mk.injEq] at h
          exact ⟨hr, rfl, (Except.error.injEq .. ▸ h.1).symm⟩
      | some s0 =>
          right; right
          rcases hen : s0.enter m.data m.store with ⟨r, d1, st1⟩
          simp only [start, hr, Bool.false_eq_true, if_false, hl, hen] at h
          cases r with
          | ok u => simp at h
          | error e2 =>
              rw [Prod.mk.injEq] at h
              have he2 : e2 = e := Except.error.injEq .. ▸ h.1
              exact ⟨s0, d1, st1, rfl, he2 ▸ hen⟩
  · intro m e m' tr h
    by_cases hr : m.isRunning
    · refine ⟨hr, ?_⟩
      cases hc : m.currentState with
      | none => simp [stop, hr, hc] at h
      | some cur =>
          rcases hx : cur.exit m.data m.store with ⟨r, d', s'⟩
          simp only [stop, hr, if_true, hc, hx] at h
          cases r with
          | ok u => simp at h
          | error e2 =>
              rw [Prod.mk.injEq] at h
              have he2 : e2 = e := Except.error.injEq .. ▸ h.1
              exact ⟨cur, d', s', rfl, he2 ▸ hx⟩
    · simp only [Bool.not_eq_true] at hr
      simp [stop, hr] at h

/-- Counterexample to C3 as stated: `stop()` does raise when the current
state's `exit` raises, and `start()` propagates an exception from the
initial state's `enter` even though both pre-loop fatal checks pass (the
machine is not running and the initial-state name is registered). -/
theorem propagation_policy_counterexample :
    (stop exitBoomMachine).1 = .error "exit boom" ∧
    (start enterBoomMachine).1 = .error "enter boom" ∧
    enterBoomMachine.isRunning = false ∧
    lookupState enterBoomMachine enterBoomMachine.initialState =
      some enterBoomState :=
  ⟨rfl, rfl, rfl, rfl⟩

/-- Witness for `exceptions_contained`: one loop iteration of the machine
whose `execute` throws is converted to an error log plus the fixed
backoff, and the machine keeps running. -/
theorem exceptions_contained_witness :
    step execBoomMachine =
      (execBoomMachine,
        [Call.execute "EB", Call.logError "Error in state 'EB': exec boom",
          Call.sleep 1000]) ∧
    (step execBoomMachine).1.isRunning = true := by
  have h := (exceptions_contained (D := Unit) (S := Unit)).1 execBoomMachine
    execBoomState "exec boom" execBoomMachine [Call.execute "EB"] rfl rfl rfl
  refine ⟨h.1, ?_⟩
  rw [h.1]
  rfl

/-- C4 amended (Fatal start errors): starting an already-running machine
raises immediately with a message naming "already running"; starting with
an unregistered initial-state name raises synchronously — before any state
code runs — with a message containing that name; in both cases the machine
is returned unchanged, so the running flag is left as it was (still
Running in the first case, not-Running in the second). -/
theorem fatal_start_errors {D S : Type} (m : Machine D S) :
    (m.isRunning = true →
      start m = (.error "State machine is already running", m, []) ∧
      ∃ pre post,
        "State machine is already running" = pre ++ "already running" ++ post)
    ∧ (m.isRunning = false → lookupState m m.initialState = none →
      start m =
        (.error ("Initial state '" ++ m.initialState ++ "' not found"), m, []) ∧
      ∃ pre post,
        "Initial state '" ++ m.initialState ++ "' not found" =
          pre ++ m.initialState ++ post) := by
  constructor
  · intro hr
    exact ⟨by simp [start, hr], "State machine is ", "", rfl⟩
  · intro hr hl
    exact ⟨by simp [start, hr, hl], "Initial state '", "' not found", rfl⟩

/-- Counterexample to C4 as stated: the already-running failure does not
leave the machine not-Running — after the raising `start()` call the
running flag is still `true`. -/
theorem fatal_start_counterexample :
    (start termMachine).1 = .error "State machine is already running" ∧
    (start termMachine).2.1.isRunning = true :=
  ⟨rfl, rfl⟩

/-- Witness for `fatal_start_errors`: the running demo machine and the
demo machine with the unregistered initial-state name "GHOST". -/
theorem fatal_start_errors_witness :
    start termMachine =
      (.error "State machine is already running", termMachine, []) ∧
    start unknownInitMachine =
      (.error "Initial state 'GHOST' not found", unknownInitMachine, []) := by
  have h1 := (fatal_start_errors termMachine).1 rfl
  have h2 := (fatal_start_errors unknownInitMachine).2 rfl rfl
  exact ⟨h1.1, h2.1⟩

/-- C10 (Failing initial `enter`): when both pre-loop checks pass and the
initial state's `enter` raises, `start()` propagates the exception while
the machine is left running with the initial state current and no `exit`
call made; a subsequent `start()` then raises the already-running error,
and `stop()` clears the running flag again. -/
theorem start_enter_failure {D S : Type} (m : Machine D S)
    (s0 : StateDef D S) (e : String) (d1 : D) (st1 : S)
    (hr : m.isRunning = false)
    (hl : lookupState m m.initialState = some s0)
    (he : s0.enter m.data m.store = (.error e, d1, st1)) :
    start m = (.error e,
        { m with isRunning := true, currentState := some s0, data := d1, store := st1 },
        [Call.enter s0.name, .logError ("State machine error: " ++ e)])
    ∧ (start m).2.1.isRunning = true
    ∧ (start m).2.1.currentState = some s0
    ∧ (∀ name, Call.exit name ∉ (start m).2.2)
    ∧ (start (start m).2.1).1 = .error "State machine is already running"
    ∧ (stop (start m).2.1).2.1.isRunning = false := by
  have h1 : start m = (.error e,
      { m with isRunning := true, currentState := some s0, data := d1, store := st1 },
      [Call.enter s0.name, .logError ("State machine error: " ++ e)]) := by
    simp [start, hr, hl, he]
  refine ⟨h1, by rw [h1], by rw [h1], ?_, by rw [h1]; simp [start], ?_⟩
  · intro name
    rw [h1]
    intro hmem
    rcases List.mem_cons.mp hmem with h | h
    · cases h
    · rcases List.mem_singleton.mp h with h
      cases h
  · rw [h1]
    rcases hx : s0.exit d1 st1 with ⟨r, d2, s2⟩
    simp [stop, hx]

/-- Witness for `start_enter_failure`: the demo machine whose initial
state's `enter` throws "enter boom". -/
theorem start_enter_failure_witness :
    (start enterBoomMachine).1 = .error "enter boom" ∧
    (start enterBoomMachine).2.1.isRunning = true ∧
    (start (start enterBoomMachine).2.1).1 =
      .error "State machine is already running" ∧
    (stop (start enterBoomMachine).2.1).2.1.isRunning = false := by
  have h := start_enter_failure enterBoomMachine enterBoomState "enter boom"
    () () rfl rfl rfl
  exact ⟨by rw [h.1], h.2.1, h.2.2.2.2.1, h.2.2.2.2.2⟩

/-- Counterexample to C7 as stated: starting from a zero counter, the
routes selected for three consecutive failure events are not
retry, retry, give-up. -/
theorem bounded_retry_counterexample :
    failureRoutes { workflowMode := none } 3 0 ≠
      [some "DISTRIBUTION", some "DISTRIBUTION", some "MONITORING"] := by
  decide

/-- C7 amended (Bounded-retry routing): `DistributionState` declares the
guarded retry transition (`retryCount < maxRetries`, to DISTRIBUTION) and
give-up transition (`retryCount >= maxRetries`, to MONITORING) on
`SYNC_FAILED`, and `handleSyncFailure` increments the counter (resetting
it at the ceiling) inside `execute` before returning the failure event;
because the guards then see the already-updated counter, with
`maxRetries = 2` the first failure routes to the retry target, the second
to the give-up target, and the third (after the reset) to the retry target
again. -/
theorem bounded_retry_routing :
    (∀ c errMsg, handleSyncFailure c errMsg =
      (if c < DistributionState.maxRetries then c + 1 else 0,
        EventBuilder.syncFailed errMsg))
    ∧ (∀ d, failureRoutes d 3 0 =
        [some "DISTRIBUTION", some "MONITORING", some "DISTRIBUTION"])
    ∧ (∀ c, ((distributionTransitions c).filter
        (fun t => t.eventType == "SYNC_FAILED")).map (·.targetState) =
      ["DISTRIBUTION", "MONITORING"]) := by
  refine ⟨?_, fun d => rfl, fun c => rfl⟩
  intro c errMsg
  by_cases h : c < DistributionState.maxRetries <;> simp [handleSyncFailure, h]

/-- Counterexample to C8 as stated: `AUDIT_COMPLETE` is not a terminal
state — `AuditCompleteState.getTransitions` is not the empty list (it
declares `CYCLE_COMPLETE` back to `MONITORING`). -/
theorem mode_fanout_counterexample :
    auditCompleteTransitions.length = 1 ∧
    auditCompleteTransitions ≠ ([] : List (Transition CtxData)) := by
  refine ⟨rfl, ?_⟩
  intro h
  have h1 : auditCompleteTransitions.length = 1 := rfl
  rw [h] at h1
  cases h1

/-- C8 amended (Mode fan-out): for `NO_CHANGE_DETECTED`,
`ChangeDetectionState` declares three guarded transitions keyed off the
shared-data key `workflowMode`; for each of the three mode values exactly
one guard holds and matching selects the transition to the corresponding
completion state — TRIGGER_COMPLETE and SCHEDULE_COMPLETE being terminal
(empty transition list) while AUDIT_COMPLETE declares a `CYCLE_COMPLETE`
transition back to MONITORING. -/
theorem mode_fanout_routes :
    (findTransition changeDetectionTransitions EventBuilder.noChangeDetected
        { workflowMode := some WorkflowMode.TRIGGER }).map (·.targetState) =
      some "TRIGGER_COMPLETE"
    ∧ (findTransition changeDetectionTransitions EventBuilder.noChangeDetected
        { workflowMode := some WorkflowMode.SCHEDULE }).map (·.targetState) =
      some "SCHEDULE_COMPLETE"
    ∧ (findTransition changeDetectionTransitions EventBuilder.noChangeDetected
        { workflowMode := some WorkflowMode.MONITOR }).map (·.targetState) =
      some "AUDIT_COMPLETE"
    ∧ changeDetectionTransitions.countP
        (fun t => qualifies t EventBuilder.noChangeDetected
          { workflowMode := some WorkflowMode.TRIGGER }) = 1
    ∧ changeDetectionTransitions.countP
        (fun t => qualifies t EventBuilder.noChangeDetected
          { workflowMode := some WorkflowMode.SCHEDULE }) = 1
    ∧ changeDetectionTransitions.countP
        (fun t => qualifies t EventBuilder.noChangeDetected
          { workflowMode := some WorkflowMode.MONITOR }) = 1
    ∧ triggerCompleteTransitions = ([] : List (Transition CtxData))
    ∧ scheduleCompleteTransitions = ([] : List (Transition CtxData))
    ∧ auditCompleteTransitions.map (fun t => (t.eventType, t.targetState)) =
      [("CYCLE_COMPLETE", "MONITORING")] :=
  ⟨rfl, rfl, rfl, rfl, rfl, rfl, rfl, rfl, rfl⟩
